import Mathlib

/-!
Formal model of the SokHub marketplace core logic, shallowly embedded from the
Python/Django sources:

* `src/product/models.py` — the `Product` inventory fields and the
  reserve/commit/release operations;
* `src/SokHub/order/models.py` — `Order.mark_as_paid`, the effective
  `Order.save`, `OrderItem.commit_stock`, `Cart.clear`, `CartItem.delete`;
* `src/SokHub/AI_Assistant/service.py` and `src/AI_Assistant/ai_service.py` —
  keyword-based language detection and chat-intent classification;
* `src/SokHub/AI_Assistant/views.py` — JSON error handling of the chat views.

Python integers are unbounded, so Django `IntegerField` values are modelled as
`Int`; database rows are structures; the product table is a total map from
primary keys to rows; fallible code returns `Except`/`Option`.
-/

/-! ## Python string primitives -/

/-- Python `str.lower()`, character by character. -/
def pyLower (s : String) : String :=
  (s.toList.map Char.toLower).asString

/-- The whitespace characters removed by Python `str.strip()`. -/
def pyIsSpace (c : Char) : Bool :=
  c == ' ' || c == '\t' || c == '\n' || c == '\r' || c == '\x0b' || c == '\x0c'

/-- Python `str.strip()`: drop whitespace from both ends. -/
def pyStrip (s : String) : String :=
  ((s.toList.dropWhile pyIsSpace).reverse.dropWhile pyIsSpace).reverse.asString

/-- `needle` is a prefix of `hay` (Python `str.startswith`). -/
def listStarts : List Char → List Char → Bool
  | [], _ => true
  | _ :: _, [] => false
  | x :: xs, y :: ys => x == y && listStarts xs ys

/-- `needle` occurs as a contiguous substring of `hay`
(the Python `in` operator on strings). -/
def listHasSub (needle : List Char) : List Char → Bool
  | [] => needle.isEmpty
  | c :: rest => listStarts needle (c :: rest) || listHasSub needle rest

/-- Python `s.startswith(p)` on `String`. -/
def startsWithB (p s : String) : Bool :=
  listStarts p.toList s.toList

/-- Python `needle in hay` on `String`. -/
def containsSub (needle hay : String) : Bool :=
  listHasSub needle.toList hay.toList

/-! ## `Product` (src/product/models.py) -/

/-- A row of `product.Product` (src/product/models.py), restricted to the
inventory fields read or written by `get_available_quantity`, `reserve_stock`,
`release_stock` and `commit_stock`. -/
structure Product where
  quantity : Int
  reservation_count : Int
  purchase_count : Int
  low_stock_threshold : Int
  is_track_inventory : Bool
  allow_backorder : Bool
  last_restocked : Option Nat
deriving DecidableEq

/-- `Product.get_available_quantity` (src/product/models.py:163-170):
`max(0, quantity - reservation_count)`; the `except` fallback is dead code for
integer fields. -/
def Product.get_available_quantity (p : Product) : Int :=
  max 0 (p.quantity - p.reservation_count)

/-- `Product.reserve_stock` (src/product/models.py:189-207): untracked products
succeed without change; otherwise, inside the row lock, refuse when backorders
are off and `get_available_quantity()` is below the request, else add the
request to `reservation_count` (the `save(update_fields=[...])` call persists
only `reservation_count`).  Returns the resulting row and the Python return
value. -/
def Product.reserve_stock (p : Product) (quantity : Int) : Product × Bool :=
  if p.is_track_inventory = false then (p, true)
  else if p.allow_backorder = false ∧ p.get_available_quantity < quantity then
    (p, false)
  else
    ({ p with reservation_count := p.reservation_count + quantity }, true)

/-- `Product.release_stock` (src/product/models.py:209-217): untracked products
are left alone; otherwise `reservation_count` is decremented by the argument,
with no lower-bound check. -/
def Product.release_stock (p : Product) (quantity : Int) : Product :=
  if p.is_track_inventory = false then p
  else { p with reservation_count := p.reservation_count - quantity }

/-- `Product.commit_stock` (src/product/models.py:219-242): untracked products
are left alone; otherwise the row update subtracts the argument from
`quantity` and `reservation_count` and adds it to `purchase_count`, and when
the new quantity is at or below `low_stock_threshold` the code stamps
`last_restocked` with the current time `t`. -/
def Product.commit_stock (p : Product) (quantity : Int) (t : Nat) : Product :=
  if p.is_track_inventory = false then p
  else
    let p1 : Product :=
      { p with
        quantity := p.quantity - quantity
        reservation_count := p.reservation_count - quantity
        purchase_count := p.purchase_count + quantity }
    if p1.quantity ≤ p1.low_stock_threshold then
      { p1 with last_restocked := some t }
    else p1

/-! ## Claims C1, C3, C4, C9 — the reservation state machine -/

/-- Claim C1 exactly as stated: for tracked products `reserve_stock(n)`
increments `reservation_count` by `n` and returns `True` when backorders are
allowed or the available quantity `quantity - reservation_count` is at least
`n`, and returns `False` leaving the row unchanged when backorders are off and
that difference is below `n`; untracked products always succeed without
change. -/
def reserveStockClaim : Prop :=
  ∀ (p : Product) (n : Int),
    (p.is_track_inventory = true →
      ((p.allow_backorder = true ∨ n ≤ p.quantity - p.reservation_count) →
        p.reserve_stock n =
          ({ p with reservation_count := p.reservation_count + n }, true)) ∧
      ((p.allow_backorder = false ∧ p.quantity - p.reservation_count < n) →
        p.reserve_stock n = (p, false))) ∧
    (p.is_track_inventory = false → p.reserve_stock n = (p, true))

/-- A tracked product whose reservations exceed its stock: the guard in the
code compares `max(0, quantity - reservation_count)` with the request, not the
raw difference. -/
def overReservedProduct : Product :=
  { quantity := 0
    reservation_count := 1
    purchase_count := 0
    low_stock_threshold := 5
    is_track_inventory := true
    allow_backorder := false
    last_restocked := none }

/-- C1, counterexample: at `overReservedProduct` and request `0` the raw
difference `quantity - reservation_count = -1` is below the request, so the
claim predicts failure, but the code compares `max(0, -1) = 0 < 0` (false) and
succeeds. -/
theorem reserve_stock_claim_false : ¬ reserveStockClaim := by
  intro h
  have h2 := ((h overReservedProduct 0).1 rfl).2 (by decide)
  have h3 : overReservedProduct.reserve_stock 0 = (overReservedProduct, true) := by
    decide
  exact absurd (h3.symm.trans h2) (by decide)

/-- C1 (amended): same statement with the availability measured by
`get_available_quantity()` — that is `max(0, quantity - reservation_count)` —
exactly as the code's guard does. -/
theorem reserve_stock_spec :
    ∀ (p : Product) (n : Int),
      (p.is_track_inventory = true →
        ((p.allow_backorder = true ∨ n ≤ p.get_available_quantity) →
          p.reserve_stock n =
            ({ p with reservation_count := p.reservation_count + n }, true)) ∧
        ((p.allow_backorder = false ∧ p.get_available_quantity < n) →
          p.reserve_stock n = (p, false))) ∧
      (p.is_track_inventory = false → p.reserve_stock n = (p, true)) := by
  intro p n
  refine ⟨fun htrack => ⟨fun hok => ?_, fun hfail => ?_⟩, fun huntrack => ?_⟩
  · rw [Product.reserve_stock]
    rw [htrack]
    simp only [Bool.true_eq_false, if_false]
    rw [if_neg]
    rcases hok with hb | hge
    · simp [hb]
    · rintro ⟨-, hlt⟩
      omega
  · rw [Product.reserve_stock]
    rw [htrack]
    simp only [Bool.true_eq_false, if_false]
    rw [if_pos hfail]
  · rw [Product.reserve_stock, if_pos huntrack]

/-- C1, witness: a concrete tracked product with 5 available and a request of
3 succeeds and adds 3 to `reservation_count`. -/
theorem reserve_stock_spec_witness :
    ({ quantity := 5, reservation_count := 0, purchase_count := 0,
       low_stock_threshold := 2, is_track_inventory := true,
       allow_backorder := false, last_restocked := none } : Product).reserve_stock 3 =
      ({ quantity := 5, reservation_count := 3, purchase_count := 0,
         low_stock_threshold := 2, is_track_inventory := true,
         allow_backorder := false, last_restocked := none }, true) :=
  ((reserve_stock_spec _ 3).1 rfl).1 (Or.inr (by decide))

/-- C3: reserving `n` units (a count, hence a natural number) of a tracked
product with at least `n` available succeeds, lowers
`get_available_quantity()` by exactly `n`, leaves `quantity` unchanged, and
`get_available_quantity()` is `max(0, quantity - reservation_count)`. -/
theorem reserve_stock_lowers_available :
    ∀ (p : Product) (n : ℕ),
      p.is_track_inventory = true →
      (n : Int) ≤ p.get_available_quantity →
      (p.reserve_stock n).2 = true ∧
      (p.reserve_stock n).1.get_available_quantity = p.get_available_quantity - n ∧
      (p.reserve_stock n).1.quantity = p.quantity ∧
      p.get_available_quantity = max 0 (p.quantity - p.reservation_count) := by
  intro p n htrack hn
  rw [Product.reserve_stock, htrack]
  simp only [Bool.true_eq_false, if_false]
  rw [if_neg (by rintro ⟨-, hlt⟩; omega)]
  refine ⟨rfl, ?_, rfl, rfl⟩
  simp only [Product.get_available_quantity] at hn ⊢
  omega

/-- C3, witness: with 4 on hand, 1 reserved (3 available) a reservation of 2
succeeds and the available quantity drops from 3 to 1. -/
theorem reserve_stock_lowers_available_witness :
    (({ quantity := 4, reservation_count := 1, purchase_count := 0,
        low_stock_threshold := 2, is_track_inventory := true,
        allow_backorder := false, last_restocked := none } : Product).reserve_stock 2).2
        = true ∧
    (({ quantity := 4, reservation_count := 1, purchase_count := 0,
        low_stock_threshold := 2, is_track_inventory := true,
        allow_backorder := false, last_restocked := none } : Product).reserve_stock 2).1.get_available_quantity
        = ({ quantity := 4, reservation_count := 1, purchase_count := 0,
             low_stock_threshold := 2, is_track_inventory := true,
             allow_backorder := false, last_restocked := none } : Product).get_available_quantity - (2 : ℕ) := by
  have h := reserve_stock_lowers_available
    { quantity := 4, reservation_count := 1, purchase_count := 0,
      low_stock_threshold := 2, is_track_inventory := true,
      allow_backorder := false, last_restocked := none } 2 rfl (by decide)
  exact ⟨h.1, h.2.1⟩

/-- C4: a successful `reserve_stock(n)` followed by `release_stock(n)` (the
sequence run when a cart item is deleted) restores `reservation_count` and
`get_available_quantity()` to their original values, and neither step changes
`quantity`. -/
theorem release_after_reserve_roundtrip :
    ∀ (p : Product) (n : ℕ),
      p.is_track_inventory = true →
      (p.reserve_stock n).2 = true →
      ((p.reserve_stock n).1.release_stock n).reservation_count = p.reservation_count ∧
      ((p.reserve_stock n).1.release_stock n).get_available_quantity =
        p.get_available_quantity ∧
      (p.reserve_stock n).1.quantity = p.quantity ∧
      ((p.reserve_stock n).1.release_stock n).quantity = p.quantity := by
  intro p n htrack hsucc
  have hok : ¬ (p.allow_backorder = false ∧ p.get_available_quantity < (n : Int)) := by
    intro hfail
    rw [Product.reserve_stock, htrack] at hsucc
    simp only [Bool.true_eq_false, if_false] at hsucc
    rw [if_pos hfail] at hsucc
    simp at hsucc
  rw [Product.reserve_stock, htrack]
  simp only [Bool.true_eq_false, if_false]
  rw [if_neg hok]
  simp only [Product.release_stock, Product.get_available_quantity, htrack,
    Bool.true_eq_false, if_false]
  refine ⟨by omega, by omega, by simp, by simp⟩

/-- C4, witness: reserving then releasing 2 units of a product with 4 on hand
and 1 reserved brings `reservation_count` back to 1. -/
theorem release_after_reserve_roundtrip_witness :
    ((({ quantity := 4, reservation_count := 1, purchase_count := 0,
         low_stock_threshold := 2, is_track_inventory := true,
         allow_backorder := false, last_restocked := none } : Product).reserve_stock 2).1.release_stock 2).reservation_count
      = 1 :=
  (release_after_reserve_roundtrip
    { quantity := 4, reservation_count := 1, purchase_count := 0,
      low_stock_threshold := 2, is_track_inventory := true,
      allow_backorder := false, last_restocked := none } 2 rfl (by decide)).1

/-- A tracked product with 5 on hand and nothing reserved, used to exhibit the
effect of an unmatched release. -/
def unreservedProduct : Product :=
  { quantity := 5
    reservation_count := 0
    purchase_count := 0
    low_stock_threshold := 2
    is_track_inventory := true
    allow_backorder := false
    last_restocked := none }

/-- C9: on a tracked product `release_stock(n)` subtracts exactly `n` from
`reservation_count` unconditionally (no check against the current count), and
an unmatched release drives `reservation_count` negative and makes
`get_available_quantity()` exceed `quantity`: releasing 3 on
`unreservedProduct` yields count `-3` and availability `8 > 5`. -/
theorem release_stock_unconditional :
    (∀ (p : Product) (n : Int),
      p.is_track_inventory = true →
      p.release_stock n =
        { p with reservation_count := p.reservation_count - n }) ∧
    (unreservedProduct.release_stock 3).reservation_count < 0 ∧
    (unreservedProduct.release_stock 3).get_available_quantity >
      (unreservedProduct.release_stock 3).quantity := by
  refine ⟨fun p n htrack => ?_, by decide, by decide⟩
  rw [Product.release_stock, htrack]
  simp

/-- C9, witness: the unconditional-decrement clause applied to a concrete
tracked product and `n = 2`. -/
theorem release_stock_unconditional_witness :
    unreservedProduct.release_stock 2 =
      { unreservedProduct with reservation_count := unreservedProduct.reservation_count - 2 } :=
  release_stock_unconditional.1 unreservedProduct 2 rfl

/-! ## `Order` (src/SokHub/order/models.py) -/

/-- A row of `order.Order`, restricted to the fields read or written by
`mark_as_paid` and the effective `save`. -/
structure Order where
  pk : Option Nat
  order_number : String
  short_code : String
  invoice_number : String
  status : String
  status_changed_at : Nat
  payment_status : String
  payment_date : Option Nat
  momo_number : Option String
  momo_transaction_id : Option String
deriving DecidableEq

/-- The `while Order.objects.filter(order_number=...).exists()` loop of the
effective `Order.save` (src/SokHub/order/models.py:367-369): keep calling
`generate_order_number` while the current number collides.  `existing` is the
set of order numbers already in the database, `cands` the stream of numbers
the generator would produce next; `none` models a run that exhausts the
stream (the Python loop would still be spinning). -/
def regenerateWhileTaken (existing : String → Bool) :
    String → List String → Option String
  | cur, [] => if existing cur then none else some cur
  | cur, c :: rest =>
    if existing cur then regenerateWhileTaken existing c rest else some cur

/-- The effective `Order.save` — the second definition in the class body
(src/SokHub/order/models.py:361-371), which replaces the first definition at
lines 116-129: generate `order_number` when unset (`gen0` is the first value
`generate_order_number` returns), for a new order (`pk is None`) regenerate
while the number is taken, then write the row.  No other field is assigned. -/
def Order.save (o : Order) (gen0 : String) (cands : List String)
    (existing : String → Bool) : Option Order :=
  let num := if o.order_number = "" then gen0 else o.order_number
  if o.pk = none then
    (regenerateWhileTaken existing num cands).map
      (fun n => { o with order_number := n })
  else
    some { o with order_number := num }

/-- A number returned by the regeneration loop is free in the database. -/
theorem regenerateWhileTaken_fresh (existing : String → Bool) :
    ∀ (cands : List String) (cur n : String),
      regenerateWhileTaken existing cur cands = some n → existing n = false := by
  intro cands
  induction cands with
  | nil =>
    intro cur n h
    rw [regenerateWhileTaken] at h
    by_cases hc : existing cur = true
    · rw [if_pos hc] at h
      exact absurd h (by simp)
    · rw [if_neg hc] at h
      cases h
      simpa using hc
  | cons c rest ih =>
    intro cur n h
    rw [regenerateWhileTaken] at h
    by_cases hc : existing cur = true
    · rw [if_pos hc] at h
      exact ih c n h
    · rw [if_neg hc] at h
      cases h
      simpa using hc

/-- Frame property of the effective `Order.save`: every field other than
`order_number` is preserved, and for a new order the saved number is free. -/
theorem Order.save_frame (o : Order) (gen0 : String) (cands : List String)
    (existing : String → Bool) (o' : Order)
    (h : o.save gen0 cands existing = some o') :
    o'.payment_status = o.payment_status ∧
    o'.status = o.status ∧
    o'.payment_date = o.payment_date ∧
    o'.short_code = o.short_code ∧
    o'.invoice_number = o.invoice_number ∧
    o'.status_changed_at = o.status_changed_at ∧
    (o.pk = none → existing o'.order_number = false) := by
  rw [Order.save] at h
  by_cases hpk : o.pk = none
  · rw [if_pos hpk] at h
    obtain ⟨n, hr, ho⟩ := Option.map_eq_some'.mp h
    subst ho
    exact ⟨rfl, rfl, rfl, rfl, rfl, rfl,
      fun _ => regenerateWhileTaken_fresh existing cands _ n hr⟩
  · rw [if_neg hpk] at h
    cases h
    exact ⟨rfl, rfl, rfl, rfl, rfl, rfl, fun hn => absurd hn hpk⟩

/-- C10: the effective `Order.save` (the second definition of `save` in the
`Order` class body, the one Python keeps) assigns only `order_number` among
the generated fields — regenerating it until unique for a new order — and
never assigns `short_code` or `invoice_number`, and never updates
`status_changed_at`. -/
theorem order_save_generated_fields :
    ∀ (o : Order) (gen0 : String) (cands : List String)
      (existing : String → Bool) (o' : Order),
      Order.save o gen0 cands existing = some o' →
      o'.short_code = o.short_code ∧
      o'.invoice_number = o.invoice_number ∧
      o'.status_changed_at = o.status_changed_at ∧
      (o.pk = none → existing o'.order_number = false) := by
  intro o gen0 cands existing o' h
  obtain ⟨-, -, -, h4, h5, h6, h7⟩ := Order.save_frame o gen0 cands existing o' h
  exact ⟨h4, h5, h6, h7⟩

/-- A fresh, unsaved order whose generated fields are all still empty. -/
def newOrderW : Order :=
  { pk := none
    order_number := ""
    short_code := ""
    invoice_number := ""
    status := "pending"
    status_changed_at := 0
    payment_status := "pending"
    payment_date := none
    momo_number := none
    momo_transaction_id := none }

/-- The first number the generator yields for `newOrderW`. -/
def genA : String := "ORD-A"

/-- The database already holds the first generated number. -/
def takenFirst : String → Bool :=
  fun s => s == "ORD-A"

/-- The row `Order.save` writes for `newOrderW`: the second candidate number,
everything else untouched. -/
def savedOrderW : Order :=
  { newOrderW with order_number := "ORD-B" }

/-- C10, witness: saving `newOrderW` with generator stream `ORD-A, ORD-B`
against a database that already holds `ORD-A` keeps `short_code`,
`invoice_number` and `status_changed_at`, and lands on the free `ORD-B`. -/
theorem order_save_generated_fields_witness :
    savedOrderW.short_code = newOrderW.short_code ∧
    savedOrderW.invoice_number = newOrderW.invoice_number ∧
    savedOrderW.status_changed_at = newOrderW.status_changed_at ∧
    takenFirst savedOrderW.order_number = false := by
  have h := order_save_generated_fields newOrderW genA [r"ORD-B"] takenFirst
    savedOrderW (by decide)
  exact ⟨h.1, h.2.1, h.2.2.1, h.2.2.2 rfl⟩

/-! ## `OrderItem.commit_stock` and `Order.mark_as_paid` -/

/-- A row of `order.OrderItem`, restricted to the fields used by
`commit_stock`: the product foreign key, the purchased quantity and the
cancellation flag. -/
structure OrderItem where
  product : Nat
  quantity : Int
  is_cancelled : Bool
deriving DecidableEq

/-- Point update of the product table at primary key `k`. -/
def updateProduct (ps : Nat → Product) (k : Nat) (f : Product → Product) :
    Nat → Product :=
  fun j => if j = k then f (ps j) else ps j

/-- `OrderItem.commit_stock` (src/SokHub/order/models.py:436-439): commit the
item's quantity on its product when the product tracks inventory and the item
is not cancelled. -/
def OrderItem.commit_stock (ps : Nat → Product) (i : OrderItem) (t : Nat) :
    Nat → Product :=
  if (ps i.product).is_track_inventory = true ∧ i.is_cancelled = false then
    updateProduct ps i.product (fun p => p.commit_stock i.quantity t)
  else ps

/-- The database state seen by `Order.mark_as_paid`: the order row, its items
and the product table. -/
structure OrderState where
  order : Order
  items : List OrderItem
  products : Nat → Product

/-- `Order.mark_as_paid` (src/SokHub/order/models.py:346-359): set
`payment_status` to completed, stamp `payment_date`, keep the optional
payment details when given, set `status` to confirmed, save the order (the
effective `save`), then commit stock for every item of the order. -/
def Order.mark_as_paid (st : OrderState) (t : Nat) (momo txid : Option String)
    (gen0 : String) (cands : List String) (existing : String → Bool) :
    Option OrderState :=
  let o1 := { st.order with payment_status := "completed", payment_date := some t }
  let o2 := match momo with
    | some m => { o1 with momo_number := some m }
    | none => o1
  let o3 := match txid with
    | some x => { o2 with momo_transaction_id := some x }
    | none => o2
  let o4 := { o3 with status := "confirmed" }
  (o4.save gen0 cands existing).map fun o5 =>
    { st with
      order := o5
      products := st.items.foldl (fun ps i => i.commit_stock ps t) st.products }

/-- The quantity a single item commits against product `pid` (zero unless the
item is for `pid`, its product tracks inventory, and it is not cancelled). -/
def commitDelta (ps : Nat → Product) (i : OrderItem) (pid : Nat) : Int :=
  if i.product = pid ∧ (ps i.product).is_track_inventory = true ∧
      i.is_cancelled = false then i.quantity
  else 0

/-- The total quantity a list of order items commits against product `pid`,
judged against the product table `ps`. -/
def committedQuantity (ps : Nat → Product) (pid : Nat) : List OrderItem → Int
  | [] => 0
  | i :: rest => commitDelta ps i pid + committedQuantity ps pid rest

/-- `Product.commit_stock` never changes `is_track_inventory`. -/
theorem Product.commit_stock_track (p : Product) (q : Int) (t : Nat) :
    (p.commit_stock q t).is_track_inventory = p.is_track_inventory := by
  rw [Product.commit_stock]
  split
  · rfl
  · dsimp only
    split <;> rfl

/-- `OrderItem.commit_stock` never changes any product's
`is_track_inventory`. -/
theorem OrderItem.commit_stock_item_track (ps : Nat → Product) (i : OrderItem)
    (t k : Nat) :
    (OrderItem.commit_stock ps i t k).is_track_inventory =
      (ps k).is_track_inventory := by
  rw [OrderItem.commit_stock]
  split
  · simp only [updateProduct]
    by_cases hk : k = i.product
    · subst hk
      rw [if_pos rfl, Product.commit_stock_track]
    · rw [if_neg hk]
  · rfl

/-- Field equations of `Product.commit_stock` on a tracked product. -/
theorem Product.commit_stock_fields (p : Product) (q : Int) (t : Nat)
    (h : p.is_track_inventory = true) :
    (p.commit_stock q t).quantity = p.quantity - q ∧
    (p.commit_stock q t).reservation_count = p.reservation_count - q ∧
    (p.commit_stock q t).purchase_count = p.purchase_count + q := by
  rw [Product.commit_stock, if_neg (by simp [h])]
  refine ⟨?_, ?_, ?_⟩ <;> (dsimp only; split <;> rfl)

/-- Field equations of one `OrderItem.commit_stock` step, as a `commitDelta`
against the current table. -/
theorem OrderItem.commit_stock_item_fields (ps : Nat → Product) (i : OrderItem)
    (t : Nat) (k : Nat) :
    (OrderItem.commit_stock ps i t k).quantity =
      (ps k).quantity - commitDelta ps i k ∧
    (OrderItem.commit_stock ps i t k).reservation_count =
      (ps k).reservation_count - commitDelta ps i k ∧
    (OrderItem.commit_stock ps i t k).purchase_count =
      (ps k).purchase_count + commitDelta ps i k := by
  rw [OrderItem.commit_stock]
  by_cases hg : (ps i.product).is_track_inventory = true ∧ i.is_cancelled = false
  · rw [if_pos hg]
    simp only [updateProduct]
    by_cases hk : k = i.product
    · subst hk
      have hf := Product.commit_stock_fields (ps i.product) i.quantity t hg.1
      rw [if_pos rfl, commitDelta, if_pos ⟨rfl, hg⟩]
      exact hf
    · rw [if_neg hk, commitDelta, if_neg (fun hc => hk hc.1.symm)]
      refine ⟨by omega, by omega, by omega⟩
  · rw [if_neg hg, commitDelta, if_neg (fun hc => hg ⟨hc.2.1, hc.2.2⟩)]
    refine ⟨by omega, by omega, by omega⟩

/-- `commitDelta` only reads `is_track_inventory`, so a commit step leaves
every later delta unchanged. -/
theorem commitDelta_commit (ps : Nat → Product) (j : OrderItem) (t : Nat)
    (i : OrderItem) (pid : Nat) :
    commitDelta (OrderItem.commit_stock ps j t) i pid = commitDelta ps i pid := by
  rw [commitDelta, commitDelta, OrderItem.commit_stock_item_track]

/-- A commit step leaves the committed totals of the remaining items
unchanged. -/
theorem committedQuantity_commit (ps : Nat → Product) (j : OrderItem) (t : Nat)
    (pid : Nat) (items : List OrderItem) :
    committedQuantity (OrderItem.commit_stock ps j t) pid items =
      committedQuantity ps pid items := by
  induction items with
  | nil => rfl
  | cons i rest ih =>
    rw [committedQuantity, committedQuantity, ih, commitDelta_commit]

/-- Folding `OrderItem.commit_stock` over the items subtracts the committed
total from `quantity` and `reservation_count` and adds it to
`purchase_count`, for every product. -/
theorem foldl_commit_stock (t : Nat) :
    ∀ (items : List OrderItem) (ps : Nat → Product) (pid : Nat),
      ((items.foldl (fun a i => OrderItem.commit_stock a i t) ps) pid).quantity =
        (ps pid).quantity - committedQuantity ps pid items ∧
      ((items.foldl (fun a i => OrderItem.commit_stock a i t) ps) pid).reservation_count =
        (ps pid).reservation_count - committedQuantity ps pid items ∧
      ((items.foldl (fun a i => OrderItem.commit_stock a i t) ps) pid).purchase_count =
        (ps pid).purchase_count + committedQuantity ps pid items := by
  intro items
  induction items with
  | nil =>
    intro ps pid
    simp [committedQuantity]
  | cons i rest ih =>
    intro ps pid
    rw [List.foldl_cons]
    obtain ⟨h1, h2, h3⟩ := ih (OrderItem.commit_stock ps i t) pid
    rw [committedQuantity_commit] at h1 h2 h3
    obtain ⟨g1, g2, g3⟩ := OrderItem.commit_stock_item_fields ps i t pid
    rw [committedQuantity]
    rw [h1, h2, h3, g1, g2, g3]
    refine ⟨by omega, by omega, by omega⟩

/-- C2: `Order.mark_as_paid` sets `payment_status` to completed, `status` to
confirmed, records a payment date, and commits stock: for every product, the
total quantity of the order's non-cancelled inventory-tracked items for that
product is subtracted from its `quantity` and `reservation_count` and added
to its `purchase_count`. -/
theorem mark_as_paid_spec :
    ∀ (st : OrderState) (t : Nat) (momo txid : Option String) (gen0 : String)
      (cands : List String) (existing : String → Bool) (st' : OrderState),
      Order.mark_as_paid st t momo txid gen0 cands existing = some st' →
      st'.order.payment_status = "completed" ∧
      st'.order.status = "confirmed" ∧
      st'.order.payment_date = some t ∧
      ∀ pid : Nat,
        (st'.products pid).quantity =
          (st.products pid).quantity - committedQuantity st.products pid st.items ∧
        (st'.products pid).reservation_count =
          (st.products pid).reservation_count -
            committedQuantity st.products pid st.items ∧
        (st'.products pid).purchase_count =
          (st.products pid).purchase_count +
            committedQuantity st.products pid st.items := by
  intro st t momo txid gen0 cands existing st' h
  simp only [Order.mark_as_paid] at h
  obtain ⟨o5, hsave, hst⟩ := Option.map_eq_some'.mp h
  obtain ⟨hps, hsts, hpd, -, -, -, -⟩ := Order.save_frame _ _ _ _ _ hsave
  subst hst
  refine ⟨?_, ?_, ?_, fun pid => foldl_commit_stock t st.items st.products pid⟩
  · rw [hps]
    cases momo <;> cases txid <;> rfl
  · rw [hsts]
  · rw [hpd]
    cases momo <;> cases txid <;> rfl

/-- An order already persisted under `ORD-1`, awaiting payment. -/
def paidOrderW : Order :=
  { pk := some 1
    order_number := "ORD-1"
    short_code := "D-1"
    invoice_number := "INV-ORD-1"
    status := "pending"
    status_changed_at := 0
    payment_status := "pending"
    payment_date := none
    momo_number := none
    momo_transaction_id := none }

/-- One two-unit, non-cancelled item for product 1, over a table where every
product is `unreservedProduct`. -/
def orderStateW : OrderState :=
  { order := paidOrderW
    items := [{ product := 1, quantity := 2, is_cancelled := false }]
    products := fun _ => unreservedProduct }

/-- A generator value for the (unused) regeneration path of the witness. -/
def genX : String := "ORD-X"

/-- The state `mark_as_paid` produces from `orderStateW` at time 7. -/
def paidStateW : OrderState :=
  (Order.mark_as_paid orderStateW 7 none none genX [] (fun _ => false)).getD
    orderStateW

/-- C2, witness: paying the concrete order marks it completed/confirmed,
stamps the date, and debits product 1 by the committed total. -/
theorem mark_as_paid_spec_witness :
    paidStateW.order.payment_status = "completed" ∧
    paidStateW.order.status = "confirmed" ∧
    paidStateW.order.payment_date = some 7 ∧
    (paidStateW.products 1).quantity =
      (orderStateW.products 1).quantity -
        committedQuantity orderStateW.products 1 orderStateW.items := by
  have hEq : Order.mark_as_paid orderStateW 7 none none genX [] (fun _ => false)
      = some paidStateW := rfl
  have h := mark_as_paid_spec orderStateW 7 none none genX [] (fun _ => false)
    paidStateW hEq
  exact ⟨h.1, h.2.1, h.2.2.1, (h.2.2.2 1).1⟩

/-! ## `Cart.clear` and `CartItem` (src/SokHub/order/models.py) -/

/-- A row of `order.CartItem`, restricted to the fields its `delete` method
reads. -/
structure CartItem where
  product : Nat
  quantity : Int
deriving DecidableEq

/-- The cart-related database state: the cart's items and the product
table. -/
structure CartState where
  items : List CartItem
  products : Nat → Product

/-- Python exceptions surfaced by the embedded code. -/
inductive PyExc where
  | attributeError (cls attr : String)
  | exception (detail : String)
deriving DecidableEq

/-- The class name `CartItem`. -/
def cartItemClassName : String := "CartItem"

/-- The attribute name `Cart.clear` looks up on each item. -/
def releaseStockName : String := "release_stock"

/-- The attributes bound by `class CartItem` in
src/SokHub/order/models.py:488-538: its model fields and its methods.
Neither the class nor its `models.Model` base defines `release_stock`. -/
def cartItemAttributes : List String :=
  [r"cart", r"product", r"quantity", r"added_at", r"save", r"get_total_price",
   r"delete", r"get_total", r"can_be_added"]

/-- `CartItem.delete` (src/SokHub/order/models.py:523-527): release the
reserved stock when the product tracks inventory, then delete the row. -/
def CartItem.delete (st : CartState) (item : CartItem) : CartState :=
  let released :=
    updateProduct st.products item.product (fun p => p.release_stock item.quantity)
  let st1 :=
    if (st.products item.product).is_track_inventory = true then
      { st with products := released }
    else st
  { st1 with items := st1.items.erase item }

/-- The loop body of `Cart.clear` (src/SokHub/order/models.py:481-486) over a
snapshot of the cart's items.  Each iteration first looks up
`item.release_stock`; the attribute is not among `cartItemAttributes`, so
Python raises `AttributeError` (the `then` branch, where the call would be
followed by `item.delete()`, is unreachable). -/
def Cart.clearBody (st : CartState) : List CartItem → Except PyExc CartState
  | [] => Except.ok st
  | item :: rest =>
    if cartItemAttributes.contains releaseStockName then
      Cart.clearBody (CartItem.delete st item) rest
    else
      Except.error (PyExc.attributeError cartItemClassName releaseStockName)

/-- `Cart.clear` (src/SokHub/order/models.py:481-486). -/
def Cart.clear (st : CartState) : Except PyExc CartState :=
  Cart.clearBody st st.items

/-- The database state after running `Cart.clear` under
`transaction.atomic()`: on an exception the transaction rolls back, leaving
the state unchanged, and the exception propagates. -/
def Cart.clearOutcome (st : CartState) : CartState × Option PyExc :=
  match Cart.clear st with
  | Except.ok st' => (st', none)
  | Except.error e => (st, some e)

/-- C5: on any non-empty cart `Cart.clear` raises `AttributeError` for
`release_stock` on `CartItem`, and the atomic transaction rolls back, so no
item is deleted and no product changes; `Cart.clear` succeeds only on an
empty cart. -/
theorem cart_clear_attribute_error :
    ∀ st : CartState,
      (st.items ≠ [] →
        Cart.clear st =
          Except.error (PyExc.attributeError cartItemClassName releaseStockName) ∧
        (Cart.clearOutcome st).1 = st) ∧
      (st.items = [] → Cart.clear st = Except.ok st) := by
  intro st
  constructor
  · intro hne
    have hclear : Cart.clear st =
        Except.error (PyExc.attributeError cartItemClassName releaseStockName) := by
      rw [Cart.clear]
      rcases hit : st.items with - | ⟨i, rest⟩
      · exact absurd hit hne
      · rw [Cart.clearBody, if_neg (by decide)]
    refine ⟨hclear, ?_⟩
    rw [Cart.clearOutcome, hclear]
  · intro hempty
    rw [Cart.clear, hempty, Cart.clearBody]

/-- A cart holding one two-unit item for product 1. -/
def cartW : CartState :=
  { items := [{ product := 1, quantity := 2 }]
    products := fun _ => unreservedProduct }

/-- C5, witness: clearing the concrete non-empty cart raises the
`AttributeError` and leaves the state untouched. -/
theorem cart_clear_attribute_error_witness :
    Cart.clear cartW =
      Except.error (PyExc.attributeError cartItemClassName releaseStockName) ∧
    (Cart.clearOutcome cartW).1 = cartW := by
  have h := (cart_clear_attribute_error cartW).1 (by simp [cartW])
  exact h

/-! ## Language detection
(src/SokHub/AI_Assistant/service.py:63-84 and src/AI_Assistant/ai_service.py:31-53) -/

/-- The language code for English. -/
def lang_en : String := "en"

/-- The language code for French. -/
def lang_fr : String := "fr"

/-- The language code for Kinyarwanda. -/
def lang_rw : String := "rw"

/-- The language code for Swahili. -/
def lang_sw : String := "sw"

/-- The French keyword written with an apostrophe in
`AIService.detect_language` (service.py). -/
def silVousPlait : String := "s\x27il vous plaît"

/-- Kinyarwanda keywords of `AIService.detect_language` (service.py:69). -/
def AIService.rw_words : List String :=
  [r"muraho", r"bite", r"mwiriwe", r"amafaranga", r"ubucuruzi"]

/-- French keywords of `AIService.detect_language` (service.py:74). -/
def AIService.fr_words : List String :=
  [r"bonjour", r"merci", silVousPlait, r"produit", r"prix"]

/-- Swahili keywords of `AIService.detect_language` (service.py:79). -/
def AIService.sw_words : List String :=
  [r"habari", r"asante", r"tafadhali", r"bidhaa", r"bei"]

/-- The branch structure of `AIService.detect_language` on the already
lowercased text: Kinyarwanda, then French, then Swahili, else English. -/
def AIService.detectLanguageCore (text_lower : String) : String :=
  if AIService.rw_words.any (fun w => containsSub w text_lower) then lang_rw
  else if AIService.fr_words.any (fun w => containsSub w text_lower) then lang_fr
  else if AIService.sw_words.any (fun w => containsSub w text_lower) then lang_sw
  else lang_en

/-- `AIService.detect_language` (src/SokHub/AI_Assistant/service.py:63-84):
lowercase the text, then match keywords. -/
def AIService.detect_language (text : String) : String :=
  AIService.detectLanguageCore (pyLower text)

/-- The French keyword written with an apostrophe in the minimal
`AIService.detect_language` (ai_service.py). -/
def silShort : String := "s\x27il"

/-- `_FRENCH_KEYWORDS` of src/AI_Assistant/ai_service.py:16-18 (a Python
set; iteration order cannot change which language is returned). -/
def MiniAIService.frenchKeywords : List String :=
  [r"bonjour", r"merci", silShort, r"svp", r"au revoir", r"salut",
   r"monsieur", r"madame", r"comment"]

/-- `_RW_KEYWORDS` of src/AI_Assistant/ai_service.py:19-21. -/
def MiniAIService.rwKeywords : List String :=
  [r"muraho", r"amakuru", r"mwiriwe", r"mwaramutse", r"urakoze", r"ndabona",
   r"bite", r"neza"]

/-- `_SW_KEYWORDS` of src/AI_Assistant/ai_service.py:22-24. -/
def MiniAIService.swKeywords : List String :=
  [r"jambo", r"habari", r"asante", r"kwaheri", r"shikamoo", r"mambo",
   r"poa", r"karibu"]

/-- The duplicate `AIService.detect_language` of
src/AI_Assistant/ai_service.py:31-53: empty input is English (`if not
text`), otherwise French, then Kinyarwanda, then Swahili keywords are looked
for in the lowercased text, defaulting to English. -/
def MiniAIService.detect_language (text : String) : String :=
  if text = "" then lang_en
  else
    let lower := pyLower text
    if MiniAIService.frenchKeywords.any (fun kw => containsSub kw lower) then
      lang_fr
    else if MiniAIService.rwKeywords.any (fun kw => containsSub kw lower) then
      lang_rw
    else if MiniAIService.swKeywords.any (fun kw => containsSub kw lower) then
      lang_sw
    else lang_en

/-- `AIService.detectLanguageCore` returns English exactly when every keyword
check fails. -/
theorem AIService.detectLanguageCore_en (tl : String) :
    AIService.detectLanguageCore tl = lang_en ↔
      AIService.rw_words.any (fun w => containsSub w tl) = false ∧
      AIService.fr_words.any (fun w => containsSub w tl) = false ∧
      AIService.sw_words.any (fun w => containsSub w tl) = false := by
  rw [AIService.detectLanguageCore]
  split_ifs with h1 h2 h3
  · exact ⟨fun he => absurd he (by decide), fun hf => absurd h1 (by simp [hf.1])⟩
  · exact ⟨fun he => absurd he (by decide), fun hf => absurd h2 (by simp [hf.2.1])⟩
  · exact ⟨fun he => absurd he (by decide), fun hf => absurd h3 (by simp [hf.2.2])⟩
  · exact ⟨fun _ => ⟨by simpa using h1, by simpa using h2, by simpa using h3⟩,
      fun _ => rfl⟩

/-- The minimal `detect_language` returns English exactly when every keyword
check fails (on nonempty input). -/
theorem MiniAIService.detect_language_en (s : String) (hs : ¬ s = "") :
    MiniAIService.detect_language s = lang_en ↔
      MiniAIService.frenchKeywords.any (fun w => containsSub w (pyLower s)) = false ∧
      MiniAIService.rwKeywords.any (fun w => containsSub w (pyLower s)) = false ∧
      MiniAIService.swKeywords.any (fun w => containsSub w (pyLower s)) = false := by
  rw [MiniAIService.detect_language, if_neg hs]
  dsimp only
  split_ifs with h1 h2 h3
  · exact ⟨fun he => absurd he (by decide), fun hf => absurd h1 (by simp [hf.1])⟩
  · exact ⟨fun he => absurd he (by decide), fun hf => absurd h2 (by simp [hf.2.1])⟩
  · exact ⟨fun he => absurd he (by decide), fun hf => absurd h3 (by simp [hf.2.2])⟩
  · exact ⟨fun _ => ⟨by simpa using h1, by simpa using h2, by simpa using h3⟩,
      fun _ => rfl⟩

/-- C8: both `detect_language` implementations always return one of the four
codes, and return `en` exactly when none of their French, Kinyarwanda or
Swahili keywords occurs as a substring of the lowercased input. -/
theorem detect_language_total_and_english :
    ∀ s : String,
      (AIService.detect_language s = lang_en ∨
        AIService.detect_language s = lang_fr ∨
        AIService.detect_language s = lang_rw ∨
        AIService.detect_language s = lang_sw) ∧
      (AIService.detect_language s = lang_en ↔
        ∀ w ∈ AIService.fr_words ++ AIService.rw_words ++ AIService.sw_words,
          containsSub w (pyLower s) = false) ∧
      (MiniAIService.detect_language s = lang_en ∨
        MiniAIService.detect_language s = lang_fr ∨
        MiniAIService.detect_language s = lang_rw ∨
        MiniAIService.detect_language s = lang_sw) ∧
      (MiniAIService.detect_language s = lang_en ↔
        ∀ w ∈ MiniAIService.frenchKeywords ++ MiniAIService.rwKeywords ++
            MiniAIService.swKeywords,
          containsSub w (pyLower s) = false) := by
  intro s
  refine ⟨?_, ?_, ?_, ?_⟩
  · rw [AIService.detect_language, AIService.detectLanguageCore]
    split_ifs <;> simp
  · rw [AIService.detect_language, AIService.detectLanguageCore_en]
    simp only [List.any_eq_false, List.mem_append, Bool.not_eq_true]
    constructor
    · rintro ⟨h1, h2, h3⟩ w hw
      rcases hw with (hw | hw) | hw
      · exact h2 w hw
      · exact h1 w hw
      · exact h3 w hw
    · intro h
      exact ⟨fun w hw => h w (Or.inl (Or.inr hw)),
        fun w hw => h w (Or.inl (Or.inl hw)),
        fun w hw => h w (Or.inr hw)⟩
  · rw [MiniAIService.detect_language]
    dsimp only
    split_ifs <;> simp
  · by_cases hs : s = ""
    · subst hs
      decide
    · rw [MiniAIService.detect_language_en s hs]
      simp only [List.any_eq_false, List.mem_append, Bool.not_eq_true]
      constructor
      · rintro ⟨h1, h2, h3⟩ w hw
        rcases hw with (hw | hw) | hw
        · exact h1 w hw
        · exact h2 w hw
        · exact h3 w hw
      · intro h
        exact ⟨fun w hw => h w (Or.inl (Or.inl hw)),
          fun w hw => h w (Or.inl (Or.inr hw)),
          fun w hw => h w (Or.inr hw)⟩

/-! ## Chat view error handling (src/SokHub/AI_Assistant/views.py) -/

/-- A Django `JsonResponse` as produced by the chat views: the HTTP status
and the JSON body fields the views set. -/
structure JsonResponse where
  status : Nat
  success : Bool
  error : Option String
  response : Option String
  intent : Option String
deriving DecidableEq

/-- The intent label for greetings. -/
def intent_greeting : String := "greeting"

/-- `str(e)` for the modelled exceptions. -/
def PyExc.text : PyExc → String
  | PyExc.attributeError cls attr => cls ++ attr
  | PyExc.exception detail => detail

/-- The response text of the `ai_simple_chat` outer handler
(views.py:140-144). -/
def aiSimpleFallbackMsg : String :=
  "Hello! I\x27m SokHub AI Assistant. I can help you buy or sell products on our marketplace. How can I assist you today?"

/-- The body `ai_simple_chat` returns from its outermost `except Exception`
handler (views.py:137-144): default HTTP status, `success: True`, a greeting
intent. -/
def aiSimpleFallback : JsonResponse :=
  { status := 200
    success := true
    error := none
    response := some aiSimpleFallbackMsg
    intent := some intent_greeting }

/-- The generic message of the `chat_start` outer handler (views.py:212). -/
def chatStartErrorMsg : String := "Failed to start chat session"

/-- The body `chat_start` returns from its outermost handler
(views.py:206-213): HTTP 500, `success: False`, `str(e)` and the generic
message. -/
def chatStartErrorResponse (e : PyExc) : JsonResponse :=
  { status := 500
    success := false
    error := some e.text
    response := some chatStartErrorMsg
    intent := none }

/-- `ai_simple_chat` (views.py:44-144) as a function of the outcome of its
`try` body: a normal response passes through; any exception raised while
handling the request is caught by the outermost `except Exception` and
converted to the greeting fallback.  The view never re-raises. -/
def ai_simple_chat (body : Except PyExc JsonResponse) :
    Except PyExc JsonResponse :=
  match body with
  | Except.ok r => Except.ok r
  | Except.error _ => Except.ok aiSimpleFallback

/-- `chat_start` (views.py:146-213) as a function of the outcome of its `try`
body (the inner chat-service `try/except` with its own fallback is part of
the body): the outermost handler converts any exception to the HTTP 500 JSON
body.  The view never re-raises. -/
def chat_start (body : Except PyExc JsonResponse) :
    Except PyExc JsonResponse :=
  match body with
  | Except.ok r => Except.ok r
  | Except.error e => Except.ok (chatStartErrorResponse e)

/-- C6: for every body outcome both chat views return a JSON response rather
than propagating an exception; on an exception `ai_simple_chat` returns the
greeting fallback body and `chat_start` returns a body with the generic error
message and HTTP status 500. -/
theorem chat_views_catch_all :
    ∀ (b : Except PyExc JsonResponse) (e : PyExc),
      (∃ r, ai_simple_chat b = Except.ok r) ∧
      (∃ r, chat_start b = Except.ok r) ∧
      ai_simple_chat (Except.error e) = Except.ok aiSimpleFallback ∧
      chat_start (Except.error e) = Except.ok (chatStartErrorResponse e) ∧
      (chatStartErrorResponse e).status = 500 ∧
      (chatStartErrorResponse e).response = some chatStartErrorMsg := by
  intro b e
  refine ⟨?_, ?_, rfl, rfl, rfl, rfl⟩
  · cases b with
    | ok r => exact ⟨r, rfl⟩
    | error e2 => exact ⟨aiSimpleFallback, rfl⟩
  · cases b with
    | ok r => exact ⟨r, rfl⟩
    | error e2 => exact ⟨chatStartErrorResponse e2, rfl⟩

/-! ## Intent classification
(`EnhancedAIService.process_chat_message`, src/SokHub/AI_Assistant/service.py:760-874,
with `_handle_vendor_query` 877-975, `_handle_order_update` 978-1031 and
`_handle_client_query` 1066-1245) -/

/-- The intent label for blocked content. -/
def intent_inappropriate : String := "inappropriate_content"

/-- The intent label after three off-topic messages. -/
def intent_redirect : String := "redirect_to_business"

/-- The intent label for platform information. -/
def intent_platform_info : String := "platform_info"

/-- The intent label of a vendor business report. -/
def intent_business_report : String := "business_report"

/-- The intent label of a vendor order update. -/
def intent_order_update : String := "order_update"

/-- The intent label of a vendor stock query. -/
def intent_stock_query : String := "stock_query"

/-- The default vendor intent label. -/
def intent_vendor_assistance : String := "vendor_assistance"

/-- The intent label of a vendor-contact request. -/
def intent_vendor_contact : String := "vendor_contact"

/-- The intent label of a successful product search. -/
def intent_shopping : String := "shopping"

/-- The intent label of an empty product search. -/
def intent_no_results : String := "no_results"

/-- The default client intent label. -/
def intent_general_assistance : String := "general_assistance"

/-- The historical intent label checked by the search heuristic. -/
def intent_product_search : String := "product_search"

/-- `AIService.INAPPROPRIATE_KEYWORDS` (service.py:50-54). -/
def AIService.INAPPROPRIATE_KEYWORDS : List String :=
  [r"porn", r"pornography", r"xxx", r"adult", r"sex", r"nude", r"naked",
   r"violence", r"kill", r"murder", r"drug", r"weed", r"cocaine", r"heroin",
   r"hate", r"racist", r"terror", r"illegal", r"scam", r"fraud"]

/-- `AIService.BUSINESS_KEYWORDS` (service.py:57-61). -/
def AIService.BUSINESS_KEYWORDS : List String :=
  [r"buy", r"sell", r"product", r"price", r"cost", r"order", r"delivery",
   r"shop", r"store", r"market", r"business", r"sales", r"revenue",
   r"customer", r"vendor", r"payment", r"shipping", r"stock", r"inventory"]

/-- `AIService.check_inappropriate_content` (service.py:115-124) on the
already lowercased text, restricted to the boolean component of the Python
tuple (the matched keyword feeds only the response text). -/
def AIService.checkInappropriateCore (text_lower : String) : Bool :=
  AIService.INAPPROPRIATE_KEYWORDS.any (fun kw => containsSub kw text_lower)

/-- `AIService.check_inappropriate_content` (service.py:115-124): lowercase
the text, then scan the keyword list. -/
def AIService.check_inappropriate_content (text : String) : Bool :=
  AIService.checkInappropriateCore (pyLower text)

/-- The small-talk greetings of `is_business_related` (service.py:137). -/
def AIService.smallTalkGreetings : List String :=
  [r"hi", r"hello", r"hey", r"how are you", r"good morning", r"good evening"]

/-- The platform terms of `is_business_related` (service.py:142). -/
def AIService.sokhub_terms : List String :=
  [r"sokhub", r"soko", r"market", r"shop", r"store", r"buy", r"sell"]

/-- `AIService.is_business_related` (service.py:126-146) on the already
lowercased text: business keywords, then greetings, then platform terms. -/
def AIService.isBusinessRelatedCore (text_lower : String) : Bool :=
  if AIService.BUSINESS_KEYWORDS.any (fun kw => containsSub kw text_lower) then
    true
  else if AIService.smallTalkGreetings.any (fun g => containsSub g text_lower) then
    true
  else if AIService.sokhub_terms.any (fun t2 => containsSub t2 text_lower) then
    true
  else false

/-- `AIService.is_business_related` (service.py:126-146). -/
def AIService.is_business_related (text : String) : Bool :=
  AIService.isBusinessRelatedCore (pyLower text)

/-- `AIService.GREETINGS['en']` (service.py:43). -/
def AIService.greetings_en : List String :=
  [r"hi", r"hello", r"hey", r"greetings", r"good morning", r"good evening",
   r"good afternoon", r"howdy"]

/-- `AIService.GREETINGS['fr']` (service.py:44). -/
def AIService.greetings_fr : List String :=
  [r"bonjour", r"salut", r"coucou", r"bonsoir"]

/-- `AIService.GREETINGS['rw']` (service.py:45). -/
def AIService.greetings_rw : List String :=
  [r"muraho", r"bite", r"mwiriwe", r"muramuke"]

/-- `AIService.GREETINGS['sw']` (service.py:46). -/
def AIService.greetings_sw : List String :=
  [r"habari", r"jambo", r"hujambo", r"salamu"]

/-- `AIService.GREETINGS.get(language, GREETINGS['en'])` (service.py:842). -/
def AIService.GREETINGS (language : String) : List String :=
  if language = lang_en then AIService.greetings_en
  else if language = lang_fr then AIService.greetings_fr
  else if language = lang_rw then AIService.greetings_rw
  else if language = lang_sw then AIService.greetings_sw
  else AIService.greetings_en

/-- The platform-information keywords of `process_chat_message`
(service.py:856). -/
def EnhancedAIService.sokhub_keywords : List String :=
  [r"sokhub", r"what is", r"about sokhub", r"how does sokhub work"]

/-- The report keywords of `_handle_vendor_query` (service.py:882-883). -/
def EnhancedAIService.vendorReportWords : List String :=
  [r"report", r"sales", r"revenue", r"earning", r"performance", r"stats",
   r"analytics", r"how is my business", r"my shop"]

/-- The order keywords of `_handle_vendor_query` (service.py:939). -/
def EnhancedAIService.vendorOrderWords : List String :=
  [r"order", r"complete", r"confirm", r"ship", r"deliver", r"cancel",
   r"update", r"status"]

/-- The stock keywords of `_handle_vendor_query` (service.py:944). -/
def EnhancedAIService.vendorStockWords : List String :=
  [r"stock", r"inventory", r"low stock", r"restock"]

/-- The contact keywords of `_handle_client_query` (service.py:1097). -/
def EnhancedAIService.contactWords : List String :=
  [r"contact", r"phone", r"email", r"address", r"reach", r"call"]

/-- The phrases `_handle_client_query` strips from the search query
(service.py:1084-1088). -/
def EnhancedAIService.removePhrases : List String :=
  [r"product", r"buy", r"looking for", r"find", r"search", r"get",
   r"show me", r"show", r"want", r"what is", r"what are", r"do you have",
   r"need", r"price of", r"how much is", r"cost of", r"is there",
   r"can you find", r"from", r"by", r"vendor", r"please"]

/-- Python `hay.replace(needle, "")` for a nonempty needle: delete every
leftmost non-overlapping occurrence, scanning left to right. -/
def listRemoveAll (needle : List Char) : List Char → List Char
  | [] => []
  | c :: rest =>
    if needle ≠ [] ∧ listStarts needle (c :: rest) = true then
      listRemoveAll needle (rest.drop (needle.length - 1))
    else
      c :: listRemoveAll needle rest
termination_by l => l.length
decreasing_by
  · simp only [List.length_drop, List.length_cons]
    omega
  · simp only [List.length_cons]
    omega

/-- Python `hay.replace(needle, "")` on `String`. -/
def pyRemoveAll (needle hay : String) : String :=
  (listRemoveAll needle.toList hay.toList).asString

/-- The query cleaning of `_handle_client_query` (service.py:1081-1094):
starting from the lowercased message, remove each listed phrase when present,
then strip. -/
def EnhancedAIService.cleanQuery (msg_lower : String) : String :=
  pyStrip (EnhancedAIService.removePhrases.foldl
    (fun q ph => if containsSub ph q then pyRemoveAll ph q else q) msg_lower)

/-- The value of the `intent` key produced by `_handle_vendor_query`
(service.py:877-975) as a function of `message.lower()`: reports, then order
management (`_handle_order_update` always labels `order_update`), then stock,
else the default vendor assistance. -/
def EnhancedAIService.vendorIntentCore (msg_lower : String) : String :=
  if EnhancedAIService.vendorReportWords.any
      (fun w => containsSub w msg_lower) then intent_business_report
  else if EnhancedAIService.vendorOrderWords.any
      (fun w => containsSub w msg_lower) then intent_order_update
  else if EnhancedAIService.vendorStockWords.any
      (fun w => containsSub w msg_lower) then intent_stock_query
  else intent_vendor_assistance

/-- The value of the `intent` key produced by `_handle_client_query`
(service.py:1066-1245) as a function of `message.lower()`.
`extractVendor` models the vendor-name extraction block (the guarded
`re.split` of lines 1070-1078), which reads only `msg_lower`; `findCount`
models the number of rows `AIClientService.find_products_by_wish` returns for
a query and vendor filter; `lastIntent` and `vendorMentioned` are the session
context.  Raw-message uses in the handler only feed response text, never the
intent. -/
def EnhancedAIService.clientIntentCore (msg_lower : String)
    (lastIntent : Option String) (vendorMentioned : Option String)
    (extractVendor : String → Option String)
    (findCount : String → Option String → Nat) : String :=
  let vendor_name := extractVendor msg_lower
  let query := EnhancedAIService.cleanQuery msg_lower
  if EnhancedAIService.contactWords.any (fun w => containsSub w msg_lower) then
    intent_vendor_contact
  else if query.length ≥ 2 ∨ vendor_name.isSome = true ∨
      lastIntent = some intent_shopping ∨
      lastIntent = some intent_product_search then
    if findCount query (vendor_name.orElse (fun _ => vendorMentioned)) > 0 then
      intent_shopping
    else intent_no_results
  else intent_general_assistance

/-- The value of the `intent` key of `EnhancedAIService.process_chat_message`
(service.py:760-874) as a function of the lowercased message `tl`:
`msg_lower = message.lower().strip()` drives the greeting and platform
checks, `detect_language`, `check_inappropriate_content` and
`is_business_related` each lowercase the raw message themselves, and the
vendor/client handlers use `message.lower()` unstripped — so the common
lowering is hoisted into the caller.  `offTopicCount` is the session's
off-topic counter before this message (the code increments it and redirects
when it reaches 3). -/
def EnhancedAIService.processChatIntentCore (tl : String) (user_type : String)
    (offTopicCount : Nat) (lastIntent : Option String)
    (vendorMentioned : Option String)
    (extractVendor : String → Option String)
    (findCount : String → Option String → Nat) : String :=
  let msg_lower := pyStrip tl
  let language := AIService.detectLanguageCore tl
  if AIService.checkInappropriateCore tl then intent_inappropriate
  else if AIService.isBusinessRelatedCore tl = false ∧ offTopicCount + 1 ≥ 3 then
    intent_redirect
  else if (AIService.GREETINGS language).any
      (fun g => startsWithB g msg_lower || msg_lower == g) then intent_greeting
  else if EnhancedAIService.sokhub_keywords.any
      (fun k => containsSub k msg_lower) then intent_platform_info
  else if user_type = "vendor" then EnhancedAIService.vendorIntentCore tl
  else EnhancedAIService.clientIntentCore tl lastIntent vendorMentioned
    extractVendor findCount

/-- The `intent` field of `EnhancedAIService.process_chat_message`
(service.py:760-874) for a raw message: every read of the message on the
intent path goes through `str.lower()` first. -/
def EnhancedAIService.process_chat_message_intent (message : String)
    (user_type : String) (offTopicCount : Nat) (lastIntent : Option String)
    (vendorMentioned : Option String)
    (extractVendor : String → Option String)
    (findCount : String → Option String → Nat) : String :=
  EnhancedAIService.processChatIntentCore (pyLower message) user_type
    offTopicCount lastIntent vendorMentioned extractVendor findCount

/-- C7: intent classification depends on the message only through its
lowercased text — for the same user type, session state and database
oracles, two messages with equal lowercasing receive the same intent. -/
theorem process_chat_intent_lower_invariant :
    ∀ (m1 m2 : String) (user_type : String) (offTopicCount : Nat)
      (lastIntent vendorMentioned : Option String)
      (extractVendor : String → Option String)
      (findCount : String → Option String → Nat),
      pyLower m1 = pyLower m2 →
      EnhancedAIService.process_chat_message_intent m1 user_type offTopicCount
          lastIntent vendorMentioned extractVendor findCount =
        EnhancedAIService.process_chat_message_intent m2 user_type offTopicCount
          lastIntent vendorMentioned extractVendor findCount := by
  intro m1 m2 user_type offTopicCount lastIntent vendorMentioned ev fc h
  rw [EnhancedAIService.process_chat_message_intent,
    EnhancedAIService.process_chat_message_intent, h]

/-- A mixed-case greeting. -/
def msgHelloMixed : String := "Hello"

/-- The same greeting upper-cased. -/
def msgHelloUpper : String := "HELLO"

/-- The guest user type. -/
def guestType : String := "guest"

/-- C7, witness: `Hello` and `HELLO` lowercase identically, so a guest with a
fresh session gets the same intent for both. -/
theorem process_chat_intent_lower_invariant_witness :
    EnhancedAIService.process_chat_message_intent msgHelloMixed guestType 0
        none none (fun _ => none) (fun _ _ => 0) =
      EnhancedAIService.process_chat_message_intent msgHelloUpper guestType 0
        none none (fun _ => none) (fun _ _ => 0) :=
  process_chat_intent_lower_invariant msgHelloMixed msgHelloUpper guestType 0
    none none (fun _ => none) (fun _ _ => 0) (by decide)

/-- A concrete exception for the view-handler witness. -/
def boomExc : PyExc := PyExc.exception chatStartErrorMsg

/-- C6, witness: with a concrete failing body both views return the
documented JSON fallbacks and `chat_start` uses HTTP 500. -/
theorem chat_views_catch_all_witness :
    ai_simple_chat (Except.error boomExc) = Except.ok aiSimpleFallback ∧
    chat_start (Except.error boomExc) = Except.ok (chatStartErrorResponse boomExc) ∧
    (chatStartErrorResponse boomExc).status = 500 := by
  have h := chat_views_catch_all (Except.error boomExc) boomExc
  exact ⟨h.2.2.1, h.2.2.2.1, h.2.2.2.2.1⟩

/-- A concrete French message. -/
def frMsgW : String := "Bonjour mon ami"

/-- C8, witness: on a concrete input both implementations return one of the
four codes. -/
theorem detect_language_total_and_english_witness :
    (AIService.detect_language frMsgW = lang_en ∨
      AIService.detect_language frMsgW = lang_fr ∨
      AIService.detect_language frMsgW = lang_rw ∨
      AIService.detect_language frMsgW = lang_sw) ∧
    (MiniAIService.detect_language frMsgW = lang_en ∨
      MiniAIService.detect_language frMsgW = lang_fr ∨
      MiniAIService.detect_language frMsgW = lang_rw ∨
      MiniAIService.detect_language frMsgW = lang_sw) := by
  have h := detect_language_total_and_english frMsgW
  exact ⟨h.1, h.2.2.1⟩
